import Mathlib

/-!
Shallow embedding of `src/ldnsx.py` (the ldnsx DNS library) and proofs about it.

The Python source wraps the external `ldns` C library.  The external collaborators
are modelled explicitly, following their documented behaviour:

* `ldns_resolver_push_nameserver` appends the address at the END of the resolver's
  nameserver array (`nameservers[ns_count] = n`), and
  `ldns_resolver_pop_nameserver` removes and returns the LAST element
  (`pop = nameservers[ns_count - 1]`).  Queries are sent to nameservers in array
  order, index 0 first (the resolver's `random` flag is off for resolvers built
  with `new_frm_file`).
* `ipcalc.IP(s).bin()` is modelled by an abstract `ipcalcBits` function giving the
  bit length of the parsed address, `none` when parsing raises.
* `get_addr_by_name` is modelled by an abstract lookup returning the list of
  resolved addresses (`none` for a falsy result).
* Python's `str.split(',')` is modelled by `pySplitComma` below.

Python exceptions are modelled by the `PyError` type; a Python method that can
raise returns `Except PyError _`.
-/

/-- Python exception outcomes relevant to ldnsx. -/
inductive PyError where
  /-- `raise Exception(msg)` -/
  | exc (msg : String)
  /-- `NameError`: a name referenced but not bound in any enclosing scope. -/
  | nameError (var : String)
  /-- `AttributeError`: attribute access on an object that lacks it. -/
  | attributeError (attr : String)
  /-- `StopIteration` from `next()` on an exhausted iterator. -/
  | stopIteration
deriving DecidableEq, Repr

/-- State of the underlying `ldns.ldns_resolver` as far as ldnsx touches it:
the nameserver array (index 0 queried first) and the dnssec flag. -/
structure LdnsResolver where
  nameservers : List String
  dnssec : Bool
deriving DecidableEq, Repr

/-- `ldns_resolver_push_nameserver`: appends at the end of the array. -/
def push_nameserver (r : LdnsResolver) (ns : String) : LdnsResolver :=
  { r with nameservers := r.nameservers ++ [ns] }

/-- `ldns_resolver_pop_nameserver`: removes and returns the last element of the
array, `none` when the array is empty. -/
def pop_nameserver (r : LdnsResolver) : Option String × LdnsResolver :=
  match r.nameservers.getLast? with
  | none => (none, r)
  | some nm => (some nm, { r with nameservers := r.nameservers.dropLast })

/-- The `while nm:` pop loop shared by `nameservers_ip` (lines 230-234, collecting
the popped strings in order) and `drop_nameservers` (lines 264-265, discarding
them).  `fuel` bounds the iteration count so the recursion is structural; any
fuel above the array length gives the loop's exit-on-`None` behaviour. -/
def popLoop : Nat → LdnsResolver → List String → List String × LdnsResolver
  | 0, r, acc => (acc, r)
  | fuel + 1, r, acc =>
    match pop_nameserver r with
    | (none, r1) => (acc, r1)
    | (some nm, r1) => popLoop fuel r1 (acc ++ [nm])

/-- `resolver.nameservers_ip` (src/ldnsx.py lines 224-238): pop every nameserver
into `nm_str_stack2`, push them back in the popped order, return the reverse of
`nm_str_stack2`.  Returns the list together with the post-call resolver state. -/
def nameservers_ip (r : LdnsResolver) : List String × LdnsResolver :=
  let p := popLoop (r.nameservers.length + 1) r []
  let r2 := p.1.foldl push_nameserver p.2
  (p.1.reverse, r2)

/-- `resolver.drop_nameservers` (lines 259-265): pop until `None`. -/
def drop_nameservers (r : LdnsResolver) : LdnsResolver :=
  (popLoop (r.nameservers.length + 1) r []).2

/-- External collaborators of `add_nameserver`: `ipcalc` address parsing and the
system resolver's `get_addr_by_name` hostname lookup. -/
structure ExtEnv where
  ipcalcBits : String → Option Nat
  getAddrByName : String → Option (List String)

/-- `isValidIP` (lines 57-67): bit length of the `ipcalc`-parsed address; 32 bits
means IPv4 (returns 4), 128 bits IPv6 (returns 6), anything else 0. -/
def isValidIP (E : ExtEnv) (ipaddr : String) : Nat :=
  match E.ipcalcBits ipaddr with
  | none => 0
  | some bits => if bits = 32 then 4 else if bits = 128 then 6 else 0

/-- `resolver.add_nameserver` (lines 241-257): push a valid IPv4/IPv6 literal,
otherwise resolve `ns` as a hostname and push each resulting address in order;
raise when the lookup yields nothing. -/
def add_nameserver (E : ExtEnv) (r : LdnsResolver) (ns : String) :
    Except PyError LdnsResolver :=
  if isValidIP E ns = 4 then
    Except.ok (push_nameserver r ns)
  else if isValidIP E ns = 6 then
    Except.ok (push_nameserver r ns)
  else
    match E.getAddrByName ns with
    | none => Except.error (PyError.exc "Failed to resolve address")
    | some addrs => Except.ok (addrs.foldl push_nameserver r)

/-- `resolver.set_nameservers` (lines 267-270): drop everything, then
`add_nameserver` each entry in list order. -/
def set_nameservers (E : ExtEnv) (r : LdnsResolver) (nm_list : List String) :
    Except PyError LdnsResolver :=
  nm_list.foldlM (fun acc nm => add_nameserver E acc nm) (drop_nameservers r)

/-- `resolver.set_dnssec` (lines 276-277). -/
def set_dnssec (r : LdnsResolver) (b : Bool) : LdnsResolver :=
  { r with dnssec := b }

/-- Python's `s.split(',')` on a list of characters: split at every comma,
keeping empty pieces. -/
def pySplitCommaAux : List Char → List Char → List String
  | [], cur => [String.mk cur.reverse]
  | c :: cs, cur =>
    if c = ',' then String.mk cur.reverse :: pySplitCommaAux cs []
    else pySplitCommaAux cs (c :: cur)

/-- Python's `ns.split(',')` (line 162), modelled character by character. -/
def pySplitComma (s : String) : List String :=
  pySplitCommaAux s.data []

/-- `resolver.__init__` (lines 140-166): load the nameservers from
`/etc/resolv.conf` (the `defaults` argument); when `ns` is given, drop them,
split `ns` on commas, REVERSE the list, and `add_nameserver` each entry;
finally set the dnssec flag. -/
def resolver_init (E : ExtEnv) (defaults : List String) (ns : Option String)
    (dnssec : Bool) : Except PyError LdnsResolver := do
  let r0 : LdnsResolver := { nameservers := defaults, dnssec := false }
  let r1 ← match ns with
    | none => pure r0
    | some s =>
      let r := drop_nameservers r0
      let nm_list := (pySplitComma s).reverse
      nm_list.foldlM (fun acc nm => add_nameserver E acc nm) r
  pure (set_dnssec r1 dnssec)

/-- ldns sends a query to the nameservers in array order starting at index 0
(first responding one wins), so the first nameserver queried is the head of the
array. -/
def first_queried (r : LdnsResolver) : Option String :=
  r.nameservers.head?

/-- The keys of the module-level `_rr_types` dict (src/ldnsx.py lines 69-135), in
source order.  The dict's values are opaque `ldns.LDNS_RR_TYPE_*` constants of
the external library; the code paths verified here only consult the keys
(`rr_type in _rr_types.keys()`). -/
def _rr_types_keys : List String :=
  ["A", "A6", "AAAA", "AFSDB", "ANY", "APL", "ATMA", "AXFR", "CERT", "CNAME",
   "COUNT", "DHCID", "DLV", "DNAME", "DNSKEY", "DS", "EID", "FIRST", "GID",
   "GPOS", "HINFO", "IPSECKEY", "ISDN", "IXFR", "KEY", "KX", "LAST", "LOC",
   "MAILA", "MAILB", "MB", "MD", "MF", "MG", "MINFO", "MR", "MX", "NAPTR",
   "NIMLOC", "NS", "NSAP", "NSAP_PTR", "NSEC", "NSEC3", "NSEC3PARAMS", "NULL",
   "NXT", "OPT", "PTR", "PX", "RP", "RRSIG", "RT", "SIG", "SINK", "SOA", "SRV",
   "SSHFP", "TSIG", "TXT", "UID", "UINFO", "UNSPEC", "WKS", "X25"]

/-- One raw `ldns_rr` as ldnsx reads it: owner name, type name
(`get_type_str()`), and the rdata fields rendered as strings (`rdfs()`). -/
structure ldns_rr where
  owner : String
  get_type_str : String
  rdfs : List String
deriving DecidableEq, Repr

/-- `resource_record` (src/ldnsx.py lines 365-385): a wrapper holding one raw
`ldns_rr`. -/
structure resource_record where
  _ldns_rr : ldns_rr
deriving DecidableEq, Repr

/-- `resource_record.owner` (lines 374-375). -/
def resource_record.rrOwner (r : resource_record) : String :=
  r._ldns_rr.owner

/-- `resource_record.rr_type` (lines 377-378). -/
def resource_record.rr_type (r : resource_record) : String :=
  r._ldns_rr.get_type_str

/-- `resource_record.ip` (lines 380-385): for an "A" or "AAAA" record, return
`str(self._ldns_rr.rdfs().next())`, the first rdata field (`next()` on the empty
iterator would raise `StopIteration`); for every other type return `""`. -/
def resource_record.ip (r : resource_record) : Except PyError String :=
  if r.rr_type ∈ (["A", "AAAA"] : List String) then
    match r._ldns_rr.rdfs with
    | [] => Except.error PyError.stopIteration
    | d :: _ => Except.ok d
  else
    Except.ok ""

/-- One raw decoded `ldns_pkt` as ldnsx reads it: the four sections (each a list
of raw records in wire order) and the seven header bits. -/
structure ldns_pkt where
  question : List ldns_rr
  answer : List ldns_rr
  authority : List ldns_rr
  additional : List ldns_rr
  aa : Bool
  ad : Bool
  cd : Bool
  qr : Bool
  ra : Bool
  rd : Bool
  tc : Bool
deriving DecidableEq, Repr

/-- `packet` (src/ldnsx.py lines 280-363): a wrapper holding one raw decoded
packet. -/
structure packet where
  _ldns_pkt : ldns_pkt
deriving DecidableEq, Repr

/-- `packet.flags` (lines 312-343): start from `[]` and append "AA", "AD", "CD",
"QR", "RA", "RD", "TC" in that (alphabetical) source order, each when its header
bit is set. -/
def packet.flags (p : packet) : List String :=
  let ret : List String := []
  let ret := if p._ldns_pkt.aa then ret ++ ["AA"] else ret
  let ret := if p._ldns_pkt.ad then ret ++ ["AD"] else ret
  let ret := if p._ldns_pkt.cd then ret ++ ["CD"] else ret
  let ret := if p._ldns_pkt.qr then ret ++ ["QR"] else ret
  let ret := if p._ldns_pkt.ra then ret ++ ["RA"] else ret
  let ret := if p._ldns_pkt.rd then ret ++ ["RD"] else ret
  let ret := if p._ldns_pkt.tc then ret ++ ["TC"] else ret
  ret

/-- The section-accessor attributes the external SWIG `ldns_pkt` binding
actually exposes (wrappers of `ldns_pkt_question/answer/authority/additional`).
Accessing any other attribute name raises `AttributeError`. -/
def ldns_pkt_section_attrs : List String :=
  ["question", "answer", "authority", "additional"]

/-- `packet.answer` (lines 345-348): wrap each raw record of the answer section,
preserving order. -/
def packet.pktAnswer (p : packet) : Except PyError (List resource_record) :=
  if "answer" ∈ ldns_pkt_section_attrs then
    Except.ok (p._ldns_pkt.answer.map resource_record.mk)
  else
    Except.error (PyError.attributeError "answer")

/-- `packet.authority` (lines 350-353).  Line 353 accesses
`self._ldns_pkt.auhtority()` — note the transposed spelling "auhtority" — an
attribute the binding does not have, so the access raises `AttributeError`
before any section is read. -/
def packet.pktAuthority (p : packet) : Except PyError (List resource_record) :=
  if "auhtority" ∈ ldns_pkt_section_attrs then
    Except.ok (p._ldns_pkt.authority.map resource_record.mk)
  else
    Except.error (PyError.attributeError "auhtority")

/-- `packet.additional` (lines 355-358). -/
def packet.pktAdditional (p : packet) : Except PyError (List resource_record) :=
  if "additional" ∈ ldns_pkt_section_attrs then
    Except.ok (p._ldns_pkt.additional.map resource_record.mk)
  else
    Except.error (PyError.attributeError "additional")

/-- `packet.question` (lines 360-363). -/
def packet.pktQuestion (p : packet) : Except PyError (List resource_record) :=
  if "question" ∈ ldns_pkt_section_attrs then
    Except.ok (p._ldns_pkt.question.map resource_record.mk)
  else
    Except.error (PyError.attributeError "question")

/-- Observable network-facing events of one `query` call: a send of the DNS
question to the configured nameservers (`self._ldns_resolver.query(...)`), or a
`time.sleep(1)` backoff. -/
inductive QEvent where
  | send
  | sleepOne
deriving DecidableEq, Repr

/-- The retry recursion of `resolver.query` (lines 186-191), after the rr_type
check of line 184 has passed.  `net r name rr_type k` is the external engine's
response to the (k+1)-st send of this call (`none` models a falsy `pkt`:
packet loss / no response).  Returns the result together with the event trace.

Per source: when `tries == 0` return `None` (no send); otherwise send once, and
on no response sleep one second and recurse with `tries - 1`.  (The source
recurses into `query` itself; since `rr_type` is unchanged, the line-184
membership re-check passes on every recursive call, so the recursion is
faithfully captured here.) -/
def queryAux (net : LdnsResolver → String → String → Nat → Option ldns_pkt)
    (r : LdnsResolver) (name rr_type : String) (attempt : Nat) :
    Nat → Option packet × List QEvent
  | 0 => (none, [])
  | tries + 1 =>
    match net r name rr_type attempt with
    | some pkt => (some ⟨pkt⟩, [QEvent.send])
    | none =>
      let p := queryAux net r name rr_type (attempt + 1) tries
      (p.1, QEvent.send :: QEvent.sleepOne :: p.2)

/-- `resolver.query` (src/ldnsx.py lines 169-191): raise
`Exception("Unknown DNS Record Type")` when `rr_type` is not a key of
`_rr_types` (line 184-185, before any network traffic); otherwise run the
send/retry recursion.  `dns_class` is accepted but the send always uses
`LDNS_RR_CLASS_IN` (line 187).  Result is paired with the trace of network
events. -/
def resolver_query (net : LdnsResolver → String → String → Nat → Option ldns_pkt)
    (r : LdnsResolver) (name rr_type : String) (dns_class : String)
    (tries : Nat) : Except PyError (Option packet) × List QEvent :=
  if rr_type ∈ _rr_types_keys then
    let p := queryAux net r name rr_type 0 tries
    (Except.ok p.1, p.2)
  else
    (Except.error (PyError.exc "Unknown DNS Record Type"), [])

/-- `ldns.LDNS_STATUS_OK` of the external library (its status enum's zero). -/
def LDNS_STATUS_OK : Nat := 0

/-- External state of one AXFR exchange: the status `axfr_start` reports, and
the successive records `axfr_next` yields before returning `None`. -/
structure AxfrSession where
  start_status : Nat
  next_records : List ldns_rr
deriving DecidableEq, Repr

/-- `resolver.AXFR` (src/ldnsx.py lines 210-222).  When `axfr_start` does not
return `LDNS_STATUS_OK`, line 218 executes
`raise Exception("Starting AXFR failed. Error: %s" % ldns.ldns_get_errorstr_by_id(status))`;
the name `status` is bound nowhere in the function (its locals are `self`,
`name` and, later, `pres`), so evaluating the argument of the `raise` raises
`NameError` on `status` — no `Exception` carrying the protocol status is ever
constructed.  Otherwise the generator yields a `resource_record` for each
record `axfr_next` produces until it returns `None`. -/
def AXFR (s : AxfrSession) (name : String) :
    Except PyError (List resource_record) :=
  if s.start_status ≠ LDNS_STATUS_OK then
    Except.error (PyError.nameError "status")
  else
    Except.ok (s.next_records.map resource_record.mk)

/-- Sample external environment for concrete instantiations: the dotted-quad
literals used below parse as 32-bit (IPv4) addresses, everything else fails to
parse; hostname lookup finds nothing. -/
def ipv4Env : ExtEnv where
  ipcalcBits := fun s =>
    if s ∈ (["192.168.1.1", "192.168.1.2", "192.168.1.3",
             "10.0.0.1", "10.0.0.2", "192.0.2.1"] : List String)
    then some 32 else none
  getAddrByName := fun _ => none

theorem popLoop_spec : ∀ (fuel : Nat) (ns : List String) (d : Bool)
    (acc : List String), ns.length < fuel →
    popLoop fuel ⟨ns, d⟩ acc = (acc ++ ns.reverse, ⟨[], d⟩) := by
  intro fuel
  induction fuel with
  | zero => intro ns d acc h; exact absurd h (Nat.not_lt_zero _)
  | succ n ih =>
    intro ns d acc h
    rcases List.eq_nil_or_concat ns with rfl | ⟨l, a, rfl⟩
    · simp [popLoop, pop_nameserver]
    · simp only [List.concat_eq_append] at h ⊢
      have hlen : l.length < n := by
        simpa [List.length_append] using h
      simp only [popLoop, pop_nameserver, List.getLast?_concat,
        List.dropLast_concat]
      rw [ih l d (acc ++ [a]) hlen]
      simp

theorem foldl_push_nameserver (l : List String) :
    ∀ (m : List String) (d : Bool),
    l.foldl push_nameserver ⟨m, d⟩ = ⟨m ++ l, d⟩ := by
  induction l with
  | nil => intro m d; simp
  | cons x xs ih =>
    intro m d
    simp only [List.foldl_cons, push_nameserver]
    rw [ih]
    simp

theorem nameservers_ip_spec (ns : List String) (d : Bool) :
    nameservers_ip ⟨ns, d⟩ = (ns, ⟨ns.reverse, d⟩) := by
  simp only [nameservers_ip]
  rw [popLoop_spec (ns.length + 1) ns d [] (Nat.lt_succ_self _)]
  show (([] ++ ns.reverse).reverse,
    ([] ++ ns.reverse).foldl push_nameserver ⟨[], d⟩) = _
  rw [List.nil_append, foldl_push_nameserver ns.reverse [] d]
  simp

theorem drop_nameservers_spec (ns : List String) (d : Bool) :
    drop_nameservers ⟨ns, d⟩ = ⟨[], d⟩ := by
  simp only [drop_nameservers]
  rw [popLoop_spec (ns.length + 1) ns d [] (Nat.lt_succ_self _)]

theorem foldlM_add_ipv4 (E : ExtEnv) (xs : List String)
    (hx : ∀ x ∈ xs, isValidIP E x = 4) :
    ∀ (m : List String) (d : Bool),
    xs.foldlM (fun acc nm => add_nameserver E acc nm) (⟨m, d⟩ : LdnsResolver)
      = Except.ok ⟨m ++ xs, d⟩ := by
  induction xs with
  | nil =>
    intro m d
    show Except.ok (⟨m, d⟩ : LdnsResolver) = _
    simp
  | cons x xs ih =>
    intro m d
    have hx4 : isValidIP E x = 4 := hx x (List.mem_cons_self x xs)
    have hxs : ∀ y ∈ xs, isValidIP E y = 4 :=
      fun y hy => hx y (List.mem_cons_of_mem x hy)
    have hstep : add_nameserver E ⟨m, d⟩ x = Except.ok ⟨m ++ [x], d⟩ := by
      simp [add_nameserver, hx4, push_nameserver]
    rw [List.foldlM_cons, hstep]
    show xs.foldlM (fun acc nm => add_nameserver E acc nm)
        (⟨m ++ [x], d⟩ : LdnsResolver) = _
    rw [ih hxs]
    simp

/-- C1: the claim asserts `nameservers_ip` returns the nameservers in the order
they were added AND does not mutate the resolver, so that two consecutive calls
agree.  On the resolver holding `["192.168.1.1", "192.168.1.2"]` (the state
after two `add_nameserver` calls on an empty resolver) the first call does
return the addition order, but the pop/push-back loop (lines 230-236) puts the
nameservers back in popped order, i.e. reversed, so the second call returns the
reversed list: the two calls disagree. -/
theorem nameservers_ip_second_call_reversed :
    (nameservers_ip ⟨["192.168.1.1", "192.168.1.2"], false⟩).1
      = ["192.168.1.1", "192.168.1.2"] ∧
    (nameservers_ip ⟨["192.168.1.1", "192.168.1.2"], false⟩).2.nameservers
      = ["192.168.1.2", "192.168.1.1"] ∧
    (nameservers_ip
        (nameservers_ip ⟨["192.168.1.1", "192.168.1.2"], false⟩).2).1
      = ["192.168.1.2", "192.168.1.1"] := by
  decide

/-- C2: `set_nameservers ["192.168.1.1", "192.168.1.2", "192.168.1.3"]`
followed by `nameservers_ip` returns exactly that list, for every prior
resolver state (and every environment in which the three strings parse as IPv4
literals, as they do under `ipcalc`). -/
theorem set_nameservers_round_trip (E : ExtEnv) (r0 : LdnsResolver)
    (h1 : isValidIP E "192.168.1.1" = 4) (h2 : isValidIP E "192.168.1.2" = 4)
    (h3 : isValidIP E "192.168.1.3" = 4) :
    ∃ r1, set_nameservers E r0 ["192.168.1.1", "192.168.1.2", "192.168.1.3"]
        = Except.ok r1 ∧
      (nameservers_ip r1).1 = ["192.168.1.1", "192.168.1.2", "192.168.1.3"] := by
  obtain ⟨ns, d⟩ := r0
  have hx : ∀ x ∈ (["192.168.1.1", "192.168.1.2", "192.168.1.3"] : List String),
      isValidIP E x = 4 := by
    intro x hxm
    simp only [List.mem_cons, List.not_mem_nil, or_false] at hxm
    rcases hxm with rfl | rfl | rfl <;> assumption
  refine ⟨⟨["192.168.1.1", "192.168.1.2", "192.168.1.3"], d⟩, ?_, ?_⟩
  · simp only [set_nameservers, drop_nameservers_spec]
    rw [foldlM_add_ipv4 E _ hx [] d]
    simp
  · rw [nameservers_ip_spec]

/-- C2 witness: concrete environment and a resolver with prior state. -/
theorem set_nameservers_round_trip_witness :
    ∃ r1, set_nameservers ipv4Env ⟨["10.0.0.1"], true⟩
        ["192.168.1.1", "192.168.1.2", "192.168.1.3"] = Except.ok r1 ∧
      (nameservers_ip r1).1 = ["192.168.1.1", "192.168.1.2", "192.168.1.3"] :=
  set_nameservers_round_trip ipv4Env ⟨["10.0.0.1"], true⟩
    (by decide) (by decide) (by decide)

/-- C3: the claim asserts the constructor, given `"10.0.0.1,10.0.0.2"`, adds the
entries so that the first listed entry is the first nameserver queried.  The
constructor (lines 162-165) REVERSES the split list before `add_nameserver`,
and `push_nameserver` appends at the end of ldns's nameserver array, so the
resulting array is `["10.0.0.2", "10.0.0.1"]` and the first nameserver queried
(array index 0) is `"10.0.0.2"`, the LAST listed entry — contradicting the
constructor's own docstring "first takes precedence" (line 153). -/
theorem init_reverses_listed_precedence :
    resolver_init ipv4Env ["8.8.8.8"] (some "10.0.0.1,10.0.0.2") false
      = Except.ok ⟨["10.0.0.2", "10.0.0.1"], false⟩ ∧
    first_queried ⟨["10.0.0.2", "10.0.0.1"], false⟩ = some "10.0.0.2" := by
  constructor
  · rfl
  · rfl

/-- C4: with `tries = 3` against nameservers that never respond, `query` sends
exactly 3 times, sleeps one second after each failed send (in particular
between any two consecutive sends), and returns `None` — not an error. -/
theorem query_retry_exhaustion
    (net : LdnsResolver → String → String → Nat → Option ldns_pkt)
    (r : LdnsResolver) (name : String)
    (h : ∀ k, net r name "A" k = none) :
    resolver_query net r name "A" "IN" 3 =
      (Except.ok none,
       [QEvent.send, QEvent.sleepOne, QEvent.send, QEvent.sleepOne,
        QEvent.send, QEvent.sleepOne]) ∧
    [QEvent.send, QEvent.sleepOne, QEvent.send, QEvent.sleepOne,
        QEvent.send, QEvent.sleepOne].count QEvent.send = 3 := by
  constructor
  · simp only [resolver_query]
    rw [if_pos (by decide : ("A" : String) ∈ _rr_types_keys)]
    simp [queryAux, h]
  · decide

/-- C4 witness: a concrete dead network and resolver. -/
theorem query_retry_exhaustion_witness :
    resolver_query (fun _ _ _ _ => none) ⟨["192.0.2.1"], false⟩
        "example.com" "A" "IN" 3 =
      (Except.ok none,
       [QEvent.send, QEvent.sleepOne, QEvent.send, QEvent.sleepOne,
        QEvent.send, QEvent.sleepOne]) ∧
    [QEvent.send, QEvent.sleepOne, QEvent.send, QEvent.sleepOne,
        QEvent.send, QEvent.sleepOne].count QEvent.send = 3 :=
  query_retry_exhaustion (fun _ _ _ _ => none) ⟨["192.0.2.1"], false⟩
    "example.com" (fun _ => rfl)

/-- C5: a record type that is not a key of `_rr_types` makes `query` raise
"Unknown DNS Record Type" with an empty network trace — no query is sent —
for every resolver state, network behaviour, class and tries budget. -/
theorem query_unknown_type
    (net : LdnsResolver → String → String → Nat → Option ldns_pkt)
    (r : LdnsResolver) (name dns_class rr_type : String) (tries : Nat)
    (h : rr_type ∉ _rr_types_keys) :
    resolver_query net r name rr_type dns_class tries =
      (Except.error (PyError.exc "Unknown DNS Record Type"), []) := by
  simp [resolver_query, h]

/-- C5 witness: the spec's own example type "NOTAREALTYPE". -/
theorem query_unknown_type_witness :
    resolver_query (fun _ _ _ _ => none) ⟨["192.0.2.1"], false⟩
        "example.com" "NOTAREALTYPE" "IN" 1 =
      (Except.error (PyError.exc "Unknown DNS Record Type"), []) :=
  query_unknown_type (fun _ _ _ _ => none) ⟨["192.0.2.1"], false⟩
    "example.com" "IN" "NOTAREALTYPE" 1 (by decide)

/-- C10: for a registered record type, `query` with `tries = 0` returns `None`
with an empty trace: the `tries == 0` check (line 186) precedes the first send,
so no network attempt and no backoff sleep happens. -/
theorem query_zero_tries
    (net : LdnsResolver → String → String → Nat → Option ldns_pkt)
    (r : LdnsResolver) (name dns_class rr_type : String)
    (h : rr_type ∈ _rr_types_keys) :
    resolver_query net r name rr_type dns_class 0 = (Except.ok none, []) := by
  simp [resolver_query, h, queryAux]

/-- C10 witness: type "A" on a concrete resolver and network. -/
theorem query_zero_tries_witness :
    resolver_query (fun _ _ _ _ => none) ⟨["192.0.2.1"], false⟩
        "example.com" "A" "IN" 0 = (Except.ok none, []) :=
  query_zero_tries (fun _ _ _ _ => none) ⟨["192.0.2.1"], false⟩
    "example.com" "IN" "A" (by decide)

/-- C6: the claim asserts a failed AXFR start raises `AXFRStartFailed` carrying
the underlying protocol status.  When `axfr_start` reports a non-OK status
(here 1), line 218's raise-argument references the unbound name `status`, so
the call fails with `NameError` on "status" — the intended exception, which
would carry the status text, is never constructed (and no record is yielded). -/
theorem axfr_start_failure_raises_name_error :
    AXFR ⟨1, [⟨"example.com.", "SOA", ["ns1.example.com."]⟩]⟩ "example.com."
      = Except.error (PyError.nameError "status") :=
  rfl

/-- C7: the claim asserts `authority()` returns the authority section's records
wrapped in wire order.  Line 353 spells the binding attribute `auhtority`, which
the ldns packet object does not have, so `authority()` raises `AttributeError`
on every packet; the sibling accessors `answer()`, `additional()` and
`question()` do return their sections wrapped in order. -/
theorem pkt_authority_attribute_error (p : packet) :
    packet.pktAuthority p = Except.error (PyError.attributeError "auhtority") ∧
    packet.pktAnswer p = Except.ok (p._ldns_pkt.answer.map resource_record.mk) ∧
    packet.pktAdditional p
      = Except.ok (p._ldns_pkt.additional.map resource_record.mk) ∧
    packet.pktQuestion p
      = Except.ok (p._ldns_pkt.question.map resource_record.mk) := by
  refine ⟨?_, ?_, ?_, ?_⟩ <;>
    simp [packet.pktAuthority, packet.pktAnswer, packet.pktAdditional,
      packet.pktQuestion, ldns_pkt_section_attrs]

/-- C8: `ip()` returns the first data field for an "A" or "AAAA" record and the
empty string — without an error — for every other record type. -/
theorem ip_leniency (r : resource_record) :
    ((r.rr_type = "A" ∨ r.rr_type = "AAAA") →
      ∀ d rest, r._ldns_rr.rdfs = d :: rest → r.ip = Except.ok d) ∧
    (r.rr_type ≠ "A" → r.rr_type ≠ "AAAA" → r.ip = Except.ok "") := by
  constructor
  · intro ht d rest hr
    simp [resource_record.ip, hr, ht]
  · intro h1 h2
    simp [resource_record.ip, h1, h2]

/-- C8 witness: a decoded A record yields its address, a decoded MX record
yields the empty string. -/
theorem ip_leniency_witness :
    resource_record.ip ⟨⟨"example.com.", "A", ["192.0.2.7"]⟩⟩
      = Except.ok "192.0.2.7" ∧
    resource_record.ip ⟨⟨"example.com.", "MX", ["10", "mail.example.com."]⟩⟩
      = Except.ok "" :=
  ⟨(ip_leniency ⟨⟨"example.com.", "A", ["192.0.2.7"]⟩⟩).1
      (Or.inl rfl) "192.0.2.7" [] rfl,
   (ip_leniency ⟨⟨"example.com.", "MX", ["10", "mail.example.com."]⟩⟩).2
      (by decide) (by decide)⟩

/-- `flags` on an explicit packet literal equals the concatenation of the
seven conditional one-element segments, in the source's append order. -/
theorem flags_mk (q ans auth addl : List ldns_rr) (aa ad cd qr ra rd tc : Bool) :
    packet.flags ⟨⟨q, ans, auth, addl, aa, ad, cd, qr, ra, rd, tc⟩⟩ =
      (if aa then ["AA"] else []) ++ (if ad then ["AD"] else []) ++
      (if cd then ["CD"] else []) ++ (if qr then ["QR"] else []) ++
      (if ra then ["RA"] else []) ++ (if rd then ["RD"] else []) ++
      (if tc then ["TC"] else []) := by
  cases aa <;> cases ad <;> cases cd <;> cases qr <;> cases ra <;>
    cases rd <;> cases tc <;> rfl

/-- C9: `flags()` is a sub-collection of {AA, AD, CD, QR, RA, RD, TC}
containing each flag name iff the corresponding header bit is set, listed in
alphabetical order (strictly increasing character-wise); in particular a packet
with exactly the AA and RD bits set yields `["AA", "RD"]`. -/
theorem flags_ok (p : packet) :
    (p.flags ⊆ ["AA", "AD", "CD", "QR", "RA", "RD", "TC"] ∧
     ("AA" ∈ p.flags ↔ p._ldns_pkt.aa = true) ∧
     ("AD" ∈ p.flags ↔ p._ldns_pkt.ad = true) ∧
     ("CD" ∈ p.flags ↔ p._ldns_pkt.cd = true) ∧
     ("QR" ∈ p.flags ↔ p._ldns_pkt.qr = true) ∧
     ("RA" ∈ p.flags ↔ p._ldns_pkt.ra = true) ∧
     ("RD" ∈ p.flags ↔ p._ldns_pkt.rd = true) ∧
     ("TC" ∈ p.flags ↔ p._ldns_pkt.tc = true) ∧
     p.flags.Pairwise (fun a b => a.data < b.data)) ∧
    ((p._ldns_pkt.aa = true ∧ p._ldns_pkt.rd = true ∧ p._ldns_pkt.ad = false ∧
      p._ldns_pkt.cd = false ∧ p._ldns_pkt.qr = false ∧
      p._ldns_pkt.ra = false ∧ p._ldns_pkt.tc = false) →
     p.flags = ["AA", "RD"]) := by
  obtain ⟨⟨q, ans, auth, addl, aa, ad, cd, qr, ra, rd, tc⟩⟩ := p
  simp only [flags_mk]
  cases aa <;> cases ad <;> cases cd <;> cases qr <;> cases ra <;>
    cases rd <;> cases tc <;> exact ⟨by decide, by decide⟩

/-- C9 witness: a packet with exactly the AA and RD bits set. -/
theorem flags_ok_witness :
    packet.flags ⟨⟨[], [], [], [], true, false, false, false, false, true,
      false⟩⟩ = ["AA", "RD"] :=
  (flags_ok ⟨⟨[], [], [], [], true, false, false, false, false, true,
      false⟩⟩).2 ⟨rfl, rfl, rfl, rfl, rfl, rfl, rfl⟩
